import Mathlib

/-!
Shallow embedding of the `dao-governance` program

This file embeds `src/examples/dao-governance/programs/dao-governance/src/lib.rs`
(an Anchor/Solana program) into Lean 4 and proves properties of its governance
state machine.

Modelling conventions:
* `Pubkey` values are `Nat`; account data structures mirror the fields the
  handlers read and write (the `generated` types module is reconstructed from
  its uses in `lib.rs` and from the data-model section of the specification).
* Rust `u64` counters, voting powers, tallies and lamport balances are `Nat`;
  `i64` timestamps and durations are `Int`.  The program is built with checked
  arithmetic, so an overflowing operation aborts the transaction; the one
  subtraction whose abort is a reachable behaviour of interest — the treasury
  debit in `execute_proposal` — is modelled explicitly (`none` result on
  underflow), as is the unguarded `u128` division in `queue_proposal`
  (`none` result on a zero divisor).  A `none` result models an aborted
  transaction: the runtime rolls every account back, so no state changes.
* Anchor resolves and constrains accounts before a handler body runs.  The
  `init` constraint on a PDA (program-derived address) fails with an
  account-already-in-use error when a record already exists at the derived
  key; this is modelled by an explicit "existing record" input
  (`vote_record`, `member_exists`) checked before the handler's own logic,
  producing the `accountAlreadyInUse` error.
* Each handler takes exactly the accounts its `#[derive(Accounts)]` context
  names and returns the posterior value of every account it can write
  (accounts taken immutably by the handler are returned unchanged, mirroring
  the absence of `#[account(mut)]` / `&mut`).
-/

namespace DaoGov

/-- Proposal lifecycle states, from the generated `ProposalStatus` enum
(variants as matched in `lib.rs`). -/
inductive ProposalStatus where
  | active
  | succeeded
  | defeated
  | executed
  | cancelled
deriving Repr, DecidableEq

/-- Vote kinds, from the generated `VoteType` enum. -/
inductive VoteType where
  | yes
  | no
  | abstain
deriving Repr, DecidableEq

/-- Tagged proposal action payload, from the generated `ProposalType` enum
(variants and fields as matched in `execute_proposal`). -/
inductive ProposalType where
  | transfer (recipient : Nat) (amount : Nat)
  | configChange (votingPeriod : Option Int) (timelockDelay : Option Int)
      (quorumThreshold : Option Nat) (approvalThreshold : Option Nat)
  | addMember (member : Nat) (votingPower : Nat)
  | removeMember (member : Nat)
  | custom (instructionData : String) (targetProgram : Nat)
deriving Repr, DecidableEq

/-- The `DAO` account (governance unit), fields as written by `create_dao`. -/
structure DAO where
  authority : Nat
  name : String
  treasury : Nat
  total_members : Nat
  total_proposals : Nat
  voting_period : Int
  timelock_delay : Int
  quorum_threshold : Nat
  approval_threshold : Nat
  is_active : Bool
  created_at : Int
deriving Repr, DecidableEq

/-- The `Member` account, fields as written by `add_member`. -/
structure Member where
  dao : Nat
  wallet : Nat
  voting_power : Nat
  delegate : Option Nat
  proposals_created : Nat
  votes_cast : Nat
  joined_at : Int
  is_active : Bool
deriving Repr, DecidableEq

/-- The `Proposal` account, fields as written by `create_proposal`. -/
structure Proposal where
  id : Nat
  dao : Nat
  proposer : Nat
  title : String
  description : String
  proposal_type : ProposalType
  yes_votes : Nat
  no_votes : Nat
  abstain_votes : Nat
  total_votes : Nat
  start_time : Int
  end_time : Int
  queued_at : Option Int
  executed_at : Option Int
  cancelled_at : Option Int
  status : ProposalStatus
deriving Repr, DecidableEq

/-- The `Vote` account, fields as written by `cast_vote`. -/
structure Vote where
  proposal : Nat
  voter : Nat
  vote_type : VoteType
  voting_power : Nat
  comment : String
  voted_at : Int
deriving Repr, DecidableEq

/-- Error kinds: the `GovernanceError` enum of `lib.rs`, plus
`accountAlreadyInUse` for the Anchor framework error raised when an `init`
constraint finds a record already existing at the derived address. -/
inductive GovernanceError where
  | invalidVotingPeriod
  | invalidTimelock
  | invalidQuorum
  | invalidThreshold
  | daoNotActive
  | memberNotActive
  | insufficientVotingPower
  | proposalNotActive
  | votingPeriodEnded
  | votingPeriodNotEnded
  | quorumNotReached
  | proposalNotQueued
  | timelockNotExpired
  | cannotCancelProposal
  | unauthorized
  | invalidVotingPower
  | delegateeNotActive
  | noDelegationToRevoke
  | accountAlreadyInUse
deriving Repr, DecidableEq

/-- Handler `create_dao`: validates the governance parameters and initialises the
`DAO` account.  `authority_key` and `treasury_key` are the keys of the
`authority` signer and `treasury` account of the `CreateDAO` context;
`now` is `Clock::get()?.unix_timestamp`. -/
def create_dao (authority_key treasury_key : Nat) (name : String)
    (voting_period timelock_delay : Int)
    (quorum_threshold approval_threshold : Nat) (now : Int) :
    Except GovernanceError DAO :=
  if ¬ (voting_period > 0) then .error .invalidVotingPeriod
  else if ¬ (timelock_delay ≥ 0) then .error .invalidTimelock
  else if ¬ (quorum_threshold > 0 ∧ quorum_threshold ≤ 10000) then .error .invalidQuorum
  else if ¬ (approval_threshold > 0 ∧ approval_threshold ≤ 10000) then .error .invalidThreshold
  else .ok
    { authority := authority_key
      name := name
      treasury := treasury_key
      total_members := 0
      total_proposals := 0
      voting_period := voting_period
      timelock_delay := timelock_delay
      quorum_threshold := quorum_threshold
      approval_threshold := approval_threshold
      is_active := true
      created_at := now }

/-- Posterior accounts of a successful `create_proposal`: the mutated `dao`,
the initialised `proposal`, and the `member` account (taken by the handler as
an immutable reference, hence returned as read). -/
structure CreateProposalResult where
  dao : DAO
  proposal : Proposal
  member : Member
deriving Repr, DecidableEq

/-- Handler `create_proposal`: checks the DAO and proposer's member record, then
allocates the next proposal id and initialises the proposal as `Active`.
`dao_key` and `proposer_key` are the keys of the `dao` account and the
`proposer` signer of the `CreateProposal` context. -/
def create_proposal (dao : DAO) (member : Member) (dao_key proposer_key : Nat)
    (title description : String) (proposal_type : ProposalType) (now : Int) :
    Except GovernanceError CreateProposalResult :=
  if ¬ dao.is_active then .error .daoNotActive
  else if ¬ member.is_active then .error .memberNotActive
  else if ¬ (member.voting_power > 0) then .error .insufficientVotingPower
  else
    let proposal_id := dao.total_proposals
    .ok
      { dao := { dao with total_proposals := dao.total_proposals + 1 }
        proposal :=
          { id := proposal_id
            dao := dao_key
            proposer := proposer_key
            title := title
            description := description
            proposal_type := proposal_type
            yes_votes := 0
            no_votes := 0
            abstain_votes := 0
            total_votes := 0
            start_time := now
            end_time := now + dao.voting_period
            queued_at := none
            executed_at := none
            cancelled_at := none
            status := .active }
        member := member }

/-- Posterior accounts of a successful `cast_vote`: the mutated `proposal`,
the initialised `vote_record`, and the `member` account (immutable in the
handler, returned as read). -/
structure CastVoteResult where
  proposal : Proposal
  vote_record : Vote
  member : Member
deriving Repr, DecidableEq

/-- Handler `cast_vote`: the `CastVote` context `init`s the vote record at the PDA
with seeds `[b"vote", proposal, voter]`, so an existing record at that key
(`existing_vote = some _`) aborts with the account-already-in-use error
before the handler runs.  The handler then checks the proposal status, the
voting window and the member, records the vote and bumps the tallies.
`proposal_key` and `voter_key` are the keys of the `proposal` account and
`voter` signer. -/
def cast_vote (proposal : Proposal) (member : Member)
    (existing_vote : Option Vote) (proposal_key voter_key : Nat)
    (vote_type : VoteType) (comment : String) (now : Int) :
    Except GovernanceError CastVoteResult :=
  if existing_vote.isSome then .error .accountAlreadyInUse
  else if ¬ (proposal.status = .active) then .error .proposalNotActive
  else if ¬ (now ≤ proposal.end_time) then .error .votingPeriodEnded
  else if ¬ member.is_active then .error .memberNotActive
  else
    let voting_power := member.voting_power
    if ¬ (voting_power > 0) then .error .insufficientVotingPower
    else
      .ok
        { proposal :=
            { proposal with
              yes_votes :=
                match vote_type with
                | .yes => proposal.yes_votes + voting_power
                | _ => proposal.yes_votes
              no_votes :=
                match vote_type with
                | .no => proposal.no_votes + voting_power
                | _ => proposal.no_votes
              abstain_votes :=
                match vote_type with
                | .abstain => proposal.abstain_votes + voting_power
                | _ => proposal.abstain_votes
              total_votes := proposal.total_votes + voting_power }
          vote_record :=
            { proposal := proposal_key
              voter := voter_key
              vote_type := vote_type
              voting_power := voting_power
              comment := comment
              voted_at := now }
          member := member }

/-- Handler `queue_proposal`: after the voting window of an `Active` proposal has
closed, tallies participation against `total_members * 1000` (the program's
simplified reference voting power) and either fails quorum, or moves the
proposal to `Succeeded` (stamping `queued_at`) or `Defeated`.  The `u128`
division by `total_voting_power` is unguarded in the source; a zero divisor
aborts the transaction, modelled as `none`. -/
def queue_proposal (dao : DAO) (proposal : Proposal) (now : Int) :
    Option (Except GovernanceError Proposal) :=
  if ¬ (proposal.status = .active) then some (.error .proposalNotActive)
  else if ¬ (now > proposal.end_time) then some (.error .votingPeriodNotEnded)
  else
    let total_voting_power := dao.total_members * 1000
    if total_voting_power = 0 then none
    else
      let participation_rate := proposal.total_votes * 10000 / total_voting_power
      if ¬ (participation_rate ≥ dao.quorum_threshold) then
        some (.error .quorumNotReached)
      else
        let approval_rate :=
          if proposal.total_votes > 0 then
            proposal.yes_votes * 10000 / proposal.total_votes
          else 0
        if approval_rate ≥ dao.approval_threshold then
          some (.ok { proposal with status := .succeeded, queued_at := some now })
        else
          some (.ok { proposal with status := .defeated })

/-- Accounts of the `ExecuteProposal` context that the handler can write:
the `dao` and `proposal` accounts plus the lamport balances of the
`treasury_account` and `recipient_account`. -/
structure ExecuteAccounts where
  dao : DAO
  proposal : Proposal
  treasury_lamports : Nat
  recipient_lamports : Nat
deriving Repr, DecidableEq

/-- Handler `execute_proposal`: requires a `Succeeded` proposal with a stamped
`queued_at` past the timelock, dispatches on the action payload, then marks
the proposal `Executed`.  The `Transfer` arm debits the treasury with a
checked `u64` subtraction: an insufficient balance aborts the transaction
(`none`), rolling back every account. -/
def execute_proposal (a : ExecuteAccounts) (now : Int) :
    Option (Except GovernanceError ExecuteAccounts) :=
  if ¬ (a.proposal.status = .succeeded) then some (.error .proposalNotQueued)
  else
    match a.proposal.queued_at with
    | none => some (.error .proposalNotQueued)
    | some queued_at =>
      let execution_time := queued_at + a.dao.timelock_delay
      if ¬ (now ≥ execution_time) then some (.error .timelockNotExpired)
      else
        let finish := fun (b : ExecuteAccounts) =>
          some (Except.ok
            { b with proposal :=
                { b.proposal with status := .executed, executed_at := some now } })
        match a.proposal.proposal_type with
        | .transfer _ amount =>
            if amount > a.treasury_lamports then none
            else finish
              { a with
                treasury_lamports := a.treasury_lamports - amount
                recipient_lamports := a.recipient_lamports + amount }
        | .configChange voting_period timelock_delay quorum_threshold approval_threshold =>
            finish
              { a with dao :=
                  { a.dao with
                    voting_period := voting_period.getD a.dao.voting_period
                    timelock_delay := timelock_delay.getD a.dao.timelock_delay
                    quorum_threshold := quorum_threshold.getD a.dao.quorum_threshold
                    approval_threshold := approval_threshold.getD a.dao.approval_threshold } }
        | .addMember _ _ => finish a
        | .removeMember _ => finish a
        | .custom _ _ => finish a

/-- Handler `cancel_proposal`: an `Active` or `Succeeded` proposal may be cancelled
by its proposer or the DAO authority.  `canceller_key` is the key of the
`canceller` signer of the `CancelProposal` context. -/
def cancel_proposal (dao : DAO) (proposal : Proposal) (canceller_key : Nat)
    (now : Int) : Except GovernanceError Proposal :=
  if ¬ (proposal.status = .active ∨ proposal.status = .succeeded) then
    .error .cannotCancelProposal
  else
    let is_proposer := proposal.proposer = canceller_key
    let is_authority := dao.authority = canceller_key
    if ¬ (is_proposer ∨ is_authority) then .error .unauthorized
    else .ok { proposal with status := .cancelled, cancelled_at := some now }

/-- Posterior accounts of a successful `add_member`: the mutated `dao` and
the initialised `member`. -/
structure AddMemberResult where
  dao : DAO
  member : Member
deriving Repr, DecidableEq

/-- Handler `add_member`: the `AddMember` context `init`s the member record at the
PDA with seeds `[b"member", dao, new_member]`, so `member_exists = true`
aborts with the account-already-in-use error before the handler runs.  The
handler body checks only that the DAO is active and the power is positive
— it never compares `authority_key` (the signer, who pays for the account)
against `dao.authority`, and the context carries no `has_one` constraint
tying them together. -/
def add_member (dao : DAO) (member_exists : Bool)
    (dao_key authority_key new_member_key : Nat) (voting_power : Nat)
    (now : Int) : Except GovernanceError AddMemberResult :=
  if member_exists then .error .accountAlreadyInUse
  else if ¬ dao.is_active then .error .daoNotActive
  else if ¬ (voting_power > 0) then .error .invalidVotingPower
  else .ok
    { dao := { dao with total_members := dao.total_members + 1 }
      member :=
        { dao := dao_key
          wallet := new_member_key
          voting_power := voting_power
          delegate := none
          proposals_created := 0
          votes_cast := 0
          joined_at := now
          is_active := true } }

/-- The `VoteDelegation` account, fields as written by `delegate_vote`. -/
structure VoteDelegation where
  delegator : Nat
  delegatee : Nat
  dao : Nat
  delegated_power : Nat
  created_at : Int
deriving Repr, DecidableEq

/-- Posterior accounts of a successful `delegate_vote`: the mutated `member`
and the initialised `delegation` record (the `delegatee` member account is
taken immutably and returned as read). -/
structure DelegateVoteResult where
  member : Member
  delegation : VoteDelegation
  delegatee : Member
deriving Repr, DecidableEq

/-- Handler `delegate_vote`: the `DelegateVote` context `init`s the
`delegation` account, so an already-existing account at that address
(`delegation_exists = true`) aborts before the handler runs.  The body
requires the delegator's member record and the delegatee's member record to
be active, sets `member.delegate` to the delegatee wallet, and writes the
delegation record snapshotting `member.voting_power` at this instant.
`dao_key`, `delegator_key` and `delegatee_wallet_key` are the keys of the
`dao` account, the `delegator` signer and the `delegatee_wallet` account. -/
def delegate_vote (member : Member) (delegatee : Member)
    (delegation_exists : Bool) (dao_key delegator_key delegatee_wallet_key : Nat)
    (now : Int) : Except GovernanceError DelegateVoteResult :=
  if delegation_exists then .error .accountAlreadyInUse
  else if ¬ member.is_active then .error .memberNotActive
  else if ¬ delegatee.is_active then .error .delegateeNotActive
  else .ok
    { member := { member with delegate := some delegatee_wallet_key }
      delegation :=
        { delegator := delegator_key
          delegatee := delegatee_wallet_key
          dao := dao_key
          delegated_power := member.voting_power
          created_at := now }
      delegatee := delegatee }

/-- Handler `revoke_delegation`: requires `member.delegate` to be set and
clears it; the orphaned `VoteDelegation` record is not touched.
`delegator_key` is the key of the `delegator` signer (only logged). -/
def revoke_delegation (member : Member) (delegator_key : Nat) :
    Except GovernanceError Member :=
  if ¬ member.delegate.isSome then .error .noDelegationToRevoke
  else .ok { member with delegate := none }

/-- Transaction semantics of the execution environment: an instruction that
errors or aborts commits nothing — every account keeps its prior value.
`applyQueue` is the committed posterior state of a `queue_proposal` attempt. -/
def applyQueue (dao : DAO) (proposal : Proposal) (now : Int) : Proposal :=
  match queue_proposal dao proposal now with
  | some (.ok p) => p
  | _ => proposal

/-- Committed posterior state of an `execute_proposal` attempt (rollback on
error or abort). -/
def applyExecute (a : ExecuteAccounts) (now : Int) : ExecuteAccounts :=
  match execute_proposal a now with
  | some (.ok b) => b
  | _ => a

/-- Committed posterior state of a `cast_vote` attempt (rollback on error):
the proposal together with the record stored at the vote PDA. -/
def applyCastVote (proposal : Proposal) (member : Member)
    (existing_vote : Option Vote) (proposal_key voter_key : Nat)
    (vote_type : VoteType) (comment : String) (now : Int) :
    Proposal × Option Vote :=
  match cast_vote proposal member existing_vote proposal_key voter_key
      vote_type comment now with
  | .ok r => (r.proposal, some r.vote_record)
  | .error _ => (proposal, existing_vote)

/-- Committed posterior state of a `cancel_proposal` attempt. -/
def applyCancel (dao : DAO) (proposal : Proposal) (canceller_key : Nat)
    (now : Int) : Proposal :=
  match cancel_proposal dao proposal canceller_key now with
  | .ok p => p
  | .error _ => proposal

/-- The parameter bounds `create_dao` enforces (spec §3 invariant). -/
def ParamBounds (dao : DAO) : Prop :=
  0 < dao.quorum_threshold ∧ dao.quorum_threshold ≤ 10000 ∧
  0 < dao.approval_threshold ∧ dao.approval_threshold ≤ 10000 ∧
  0 < dao.voting_period ∧ 0 ≤ dao.timelock_delay

instance (dao : DAO) : Decidable (ParamBounds dao) := by
  unfold ParamBounds; infer_instance


/-! Concrete fixtures used by witnesses and counterexamples. -/

/-- A DAO in a valid configuration: authority `1`, ten members, quorum
5000 bp, approval 6000 bp, voting period 100, timelock 500. -/
def sampleDao : DAO :=
  { authority := 1
    name := "dao"
    treasury := 2
    total_members := 10
    total_proposals := 1
    voting_period := 100
    timelock_delay := 500
    quorum_threshold := 5000
    approval_threshold := 6000
    is_active := true
    created_at := 0 }

/-- A member of `sampleDao` holding 1000 voting power, with a delegate set. -/
def sampleMember : Member :=
  { dao := 9
    wallet := 3
    voting_power := 1000
    delegate := some 7
    proposals_created := 0
    votes_cast := 0
    joined_at := 0
    is_active := true }

/-- An `Active` proposal of `sampleDao` with 6000 Yes votes out of 6000 total,
voting window `[0, 100]`. -/
def samplePropA : Proposal :=
  { id := 0
    dao := 9
    proposer := 3
    title := "t"
    description := "d"
    proposal_type := .custom "x" 5
    yes_votes := 6000
    no_votes := 0
    abstain_votes := 0
    total_votes := 6000
    start_time := 0
    end_time := 100
    queued_at := none
    executed_at := none
    cancelled_at := none
    status := .active }

/-- A `Succeeded` proposal queued at time 1000 carrying a `Transfer` of 700
lamports to key 4. -/
def samplePropT : Proposal :=
  { samplePropA with
    proposal_type := .transfer 4 700
    status := .succeeded
    queued_at := some 1000 }

/-- A `Succeeded` proposal queued at time 0 whose `ConfigChange` payload
proposes a 20000 bp quorum threshold (out of range). -/
def samplePropC : Proposal :=
  { samplePropA with
    proposal_type := .configChange none none (some 20000) none
    status := .succeeded
    queued_at := some 0 }


/-! Claim theorems. -/

/-- C9: for a unit whose `totalMembers` counter is 0, `queue_proposal` on any
`Active` proposal past its `endTime` reaches the participation computation
with reference voting power `total_members * 1000 = 0` as divisor; the
division is unguarded, so the operation has no normal result (the
transaction aborts). -/
theorem c9_zero_member_division (dao : DAO) (proposal : Proposal) (now : Int)
    (hm : dao.total_members = 0) (hs : proposal.status = .active)
    (ht : now > proposal.end_time) :
    queue_proposal dao proposal now = none := by
  unfold queue_proposal
  simp [hm, hs, ht]

/-- Witness for C9: `sampleDao` with its member counter zeroed, queueing
`samplePropA` at time 101. -/
theorem c9_zero_member_division_witness :
    queue_proposal { sampleDao with total_members := 0 } samplePropA 101 = none :=
  c9_zero_member_division _ _ _ rfl rfl (by decide)

/-- C6: a second `cast_vote` for a (proposal, voter) pair that already has a
Vote record fails with the duplicate-record (account-already-in-use) error,
and the committed state keeps the existing Vote record and the proposal's
tallies byte-for-byte unchanged. -/
theorem c6_duplicate_vote (proposal : Proposal) (member : Member) (v : Vote)
    (proposal_key voter_key : Nat) (vote_type : VoteType) (comment : String)
    (now : Int) :
    cast_vote proposal member (some v) proposal_key voter_key vote_type
        comment now = .error .accountAlreadyInUse ∧
    applyCastVote proposal member (some v) proposal_key voter_key vote_type
        comment now = (proposal, some v) := by
  constructor
  · unfold cast_vote; simp
  · unfold applyCastVote cast_vote; simp

/-- C10: `add_member` initialises the activity counters to zero; a
successful `create_proposal` or `cast_vote` returns the acting member record
exactly as it was read; and the only other handlers that write a Member
account — `delegate_vote` and `revoke_delegation` — touch only the
`delegate` field, leaving both counters (and the rest of the record)
unchanged.  These five are all the Member-writing operations, so no
operation ever increments `proposals_created` or `votes_cast`: under any
sequence of operations they keep the 0 assigned at `add_member`. -/
theorem c10_member_frame :
    (∀ dao member_exists dao_key authority_key new_member_key voting_power now r,
        add_member dao member_exists dao_key authority_key new_member_key
            voting_power now = .ok r →
          r.member.proposals_created = 0 ∧ r.member.votes_cast = 0) ∧
    (∀ dao member dao_key proposer_key title description proposal_type now r,
        create_proposal dao member dao_key proposer_key title description
            proposal_type now = .ok r → r.member = member) ∧
    (∀ proposal member existing proposal_key voter_key vote_type comment now r,
        cast_vote proposal member existing proposal_key voter_key vote_type
            comment now = .ok r → r.member = member) ∧
    (∀ member delegatee delegation_exists dao_key delegator_key wallet_key now r,
        delegate_vote member delegatee delegation_exists dao_key delegator_key
            wallet_key now = .ok r →
          r.member = { member with delegate := some wallet_key } ∧
          r.member.proposals_created = member.proposals_created ∧
          r.member.votes_cast = member.votes_cast) ∧
    (∀ member delegator_key m,
        revoke_delegation member delegator_key = .ok m →
          m = { member with delegate := none } ∧
          m.proposals_created = member.proposals_created ∧
          m.votes_cast = member.votes_cast) := by
  refine ⟨?_, ?_, ?_, ?_, ?_⟩
  · intro dao me dk ak nk vp now r h
    unfold add_member at h
    split_ifs at h <;> cases h
    exact ⟨rfl, rfl⟩
  · intro dao member dk pk t d pt now r h
    unfold create_proposal at h
    split_ifs at h <;> cases h
    rfl
  · intro proposal member ev pk vk vt c now r h
    simp only [cast_vote] at h
    split_ifs at h <;> cases h
    rfl
  · intro member delegatee dex dk dk2 wk now r h
    unfold delegate_vote at h
    split_ifs at h <;> cases h
    exact ⟨rfl, rfl, rfl⟩
  · intro member dk m h
    unfold revoke_delegation at h
    split_ifs at h <;> cases h
    exact ⟨rfl, rfl, rfl⟩

/-- Witness for C10: adding member 3 to `sampleDao` yields counters at zero. -/
theorem c10_member_frame_witness :
    ∃ r, add_member sampleDao false 9 1 3 5 0 = .ok r ∧
      r.member.proposals_created = 0 ∧ r.member.votes_cast = 0 :=
  ⟨_, rfl, c10_member_frame.1 sampleDao false 9 1 3 5 0 _ rfl⟩

/-- C2 counterexample: `sampleDao.authority = 1`, yet `add_member` invoked
with signer key 2 succeeds, creates the member record and increments
`totalMembers`: the handler never compares the signer against the stored
authority (no `Unauthorized` path exists). -/
theorem c2_counterexample :
    sampleDao.authority = 1 ∧
    add_member sampleDao false 9 2 3 5 0 =
      .ok { dao := { sampleDao with total_members := 11 }
            member :=
              { dao := 9, wallet := 3, voting_power := 5, delegate := none
                proposals_created := 0, votes_cast := 0, joined_at := 0
                is_active := true } } :=
  ⟨rfl, rfl⟩

/-- C2 (amended): `add_member` performs no authority comparison — its result
does not depend on the signer key at all — and it succeeds exactly when no
member record exists at the derived key, the unit is active, and the voting
power is positive; on success it increments `totalMembers` and writes a
fresh active member record for the given wallet and power. -/
theorem c2_add_member_no_authority_check :
    (∀ dao member_exists dao_key ak bk new_member_key voting_power now,
        add_member dao member_exists dao_key ak new_member_key voting_power now =
          add_member dao member_exists dao_key bk new_member_key voting_power now) ∧
    (∀ dao member_exists dao_key ak new_member_key voting_power now,
        (∃ r, add_member dao member_exists dao_key ak new_member_key
            voting_power now = .ok r) ↔
          (member_exists = false ∧ dao.is_active = true ∧ 0 < voting_power)) ∧
    (∀ dao member_exists dao_key ak new_member_key voting_power now r,
        add_member dao member_exists dao_key ak new_member_key voting_power now
            = .ok r →
          r.dao.total_members = dao.total_members + 1 ∧
          r.member.wallet = new_member_key ∧
          r.member.voting_power = voting_power ∧ r.member.is_active = true) := by
  refine ⟨?_, ?_, ?_⟩
  · intro dao me dk ak bk nk vp now
    rfl
  · intro dao me dk ak nk vp now
    unfold add_member
    cases me
    · by_cases ha : dao.is_active
      · by_cases hv : 0 < vp
        · simp [ha, hv]
        · simp [ha, hv]
      · simp [ha]
    · simp
  · intro dao me dk ak nk vp now r h
    unfold add_member at h
    split_ifs at h <;> cases h
    exact ⟨rfl, rfl, rfl, rfl⟩

/-- Witness for C2's amended theorem: for `sampleDao` (active) with no
existing record and power 5, `add_member` succeeds, whoever signs. -/
theorem c2_add_member_no_authority_check_witness :
    ∃ r, add_member sampleDao false 9 2 3 5 0 = .ok r :=
  (c2_add_member_no_authority_check.2.1 sampleDao false 9 2 3 5 0).mpr
    ⟨rfl, rfl, by decide⟩

/-- C5: with status `Succeeded` and `queuedAt = some q`, `execute_proposal`
fails with `TimelockNotExpired` exactly when `now < q + timelockDelay`, and
at or past the boundary `now = q + timelockDelay` it proceeds into dispatch
(its result is a normal completion or an aborted transaction, never a gate
error); with any other status, or `queuedAt` absent, it fails `NotQueued`. -/
theorem c5_timelock_gate (a : ExecuteAccounts) (now : Int) :
    (∀ q, a.proposal.status = .succeeded → a.proposal.queued_at = some q →
       (now < q + a.dao.timelock_delay →
          execute_proposal a now = some (.error .timelockNotExpired)) ∧
       (q + a.dao.timelock_delay ≤ now →
          ∀ e, execute_proposal a now ≠ some (.error e))) ∧
    (a.proposal.status ≠ .succeeded ∨ a.proposal.queued_at = none →
       execute_proposal a now = some (.error .proposalNotQueued)) := by
  constructor
  · intro q hs hq
    constructor
    · intro hlt
      unfold execute_proposal
      simp [hs, hq]
      omega
    · intro hle e
      unfold execute_proposal
      simp only [hs, hq]
      simp only [not_true_eq_false, if_false]
      rw [if_neg (by omega)]
      cases hty : a.proposal.proposal_type with
      | transfer recipient amount =>
          by_cases hamt : amount > a.treasury_lamports
          · simp [hamt]
          · simp [hamt]
      | configChange vp td qt ath => simp
      | addMember m p => simp
      | removeMember m => simp
      | custom d t => simp
  · intro h
    unfold execute_proposal
    rcases h with h | h
    · simp [h]
    · rcases hs : a.proposal.status <;> simp [h] <;> rfl

/-- Witness for C5: `samplePropT` queued at 1000 under a 500 timelock fails
`TimelockNotExpired` at time 1499 (scenario C of the spec). -/
theorem c5_timelock_gate_witness :
    execute_proposal
        { dao := sampleDao, proposal := samplePropT
          treasury_lamports := 1000, recipient_lamports := 0 } 1499 =
      some (.error .timelockNotExpired) :=
  ((c5_timelock_gate _ 1499).1 1000 rfl rfl).1 (by decide)

/-- C4: executing a `Succeeded` `Transfer` proposal past its timelock aborts
whole when the treasury balance cannot cover the amount — the committed state
is unchanged and the proposal stays `Succeeded` (retryable) — and a normal
completion debits the treasury, credits the recipient, and only then marks
the proposal `Executed` with `executedAt = now`. -/
theorem c4_transfer_atomicity (a : ExecuteAccounts) (now : Int)
    (recipient amount : Nat) (q : Int)
    (hty : a.proposal.proposal_type = .transfer recipient amount)
    (hs : a.proposal.status = .succeeded) (hq : a.proposal.queued_at = some q)
    (htl : q + a.dao.timelock_delay ≤ now) :
    (a.treasury_lamports < amount →
        execute_proposal a now = none ∧ applyExecute a now = a ∧
        (applyExecute a now).proposal.status = .succeeded) ∧
    (∀ b, execute_proposal a now = some (.ok b) →
        amount ≤ a.treasury_lamports ∧
        b.treasury_lamports = a.treasury_lamports - amount ∧
        b.recipient_lamports = a.recipient_lamports + amount ∧
        b.proposal.status = .executed ∧
        b.proposal.executed_at = some now ∧ b.dao = a.dao) := by
  constructor
  · intro hlt
    have hnone : execute_proposal a now = none := by
      unfold execute_proposal
      simp only [hs, hq]
      simp only [not_true_eq_false, if_false]
      rw [if_neg (by omega)]
      simp [hty, hlt]
    have happ : applyExecute a now = a := by
      unfold applyExecute
      rw [hnone]
    exact ⟨hnone, happ, by rw [happ]; exact hs⟩
  · intro b hb
    unfold execute_proposal at hb
    simp only [hs, hq] at hb
    simp only [not_true_eq_false, if_false] at hb
    rw [if_neg (by omega)] at hb
    simp only [hty] at hb
    by_cases hamt : amount > a.treasury_lamports
    · rw [if_pos hamt] at hb
      cases hb
    · rw [if_neg hamt] at hb
      simp only [Option.some.injEq, Except.ok.injEq] at hb
      subst hb
      exact ⟨by omega, rfl, rfl, rfl, rfl, rfl⟩

/-- Witness for C4: a treasury of 100 lamports cannot cover the 700-lamport
transfer of `samplePropT`; the attempt at time 1500 aborts and the committed
state still holds a `Succeeded` proposal. -/
theorem c4_transfer_atomicity_witness :
    execute_proposal
        { dao := sampleDao, proposal := samplePropT
          treasury_lamports := 100, recipient_lamports := 0 } 1500 = none ∧
    applyExecute
        { dao := sampleDao, proposal := samplePropT
          treasury_lamports := 100, recipient_lamports := 0 } 1500 =
      { dao := sampleDao, proposal := samplePropT
        treasury_lamports := 100, recipient_lamports := 0 } ∧
    (applyExecute
        { dao := sampleDao, proposal := samplePropT
          treasury_lamports := 100, recipient_lamports := 0 } 1500).proposal.status
      = .succeeded :=
  (c4_transfer_atomicity _ 1500 4 700 1000 rfl rfl rfl (by decide)).1 (by decide)

/-- C3: for an `Active` proposal past its `endTime` in a unit with at least
one member, `queue_proposal` computes the participation rate as
`⌊totalVotes * 10000 / (totalMembers * 1000)⌋` — the denominator comes from
the member counter, not summed weights — and the approval rate as
`⌊yesVotes * 10000 / totalVotes⌋` when `totalVotes > 0`, else 0.  Below
quorum it fails `QuorumNotReached` and the committed state is unchanged
(still `Active`); at or above quorum it moves the proposal to `Succeeded`
with `queuedAt = now` when the approval threshold is met, and otherwise to
`Defeated` with `queuedAt` untouched. -/
theorem c3_queue_tally (dao : DAO) (proposal : Proposal) (now : Int)
    (hs : proposal.status = .active) (ht : proposal.end_time < now)
    (hm : 0 < dao.total_members) :
    (proposal.total_votes * 10000 / (dao.total_members * 1000) <
        dao.quorum_threshold →
      queue_proposal dao proposal now = some (.error .quorumNotReached) ∧
      applyQueue dao proposal now = proposal) ∧
    (dao.quorum_threshold ≤
        proposal.total_votes * 10000 / (dao.total_members * 1000) →
      dao.approval_threshold ≤
          (if proposal.total_votes > 0 then
            proposal.yes_votes * 10000 / proposal.total_votes else 0) →
      queue_proposal dao proposal now =
        some (.ok { proposal with status := .succeeded, queued_at := some now })) ∧
    (dao.quorum_threshold ≤
        proposal.total_votes * 10000 / (dao.total_members * 1000) →
      (if proposal.total_votes > 0 then
          proposal.yes_votes * 10000 / proposal.total_votes else 0) <
          dao.approval_threshold →
      queue_proposal dao proposal now =
        some (.ok { proposal with status := .defeated })) := by
  have hnz : ¬ (dao.total_members * 1000 = 0) := by
    intro h
    omega
  have key : queue_proposal dao proposal now =
      if ¬ (proposal.total_votes * 10000 / (dao.total_members * 1000) ≥
            dao.quorum_threshold)
      then some (.error .quorumNotReached)
      else if (if proposal.total_votes > 0 then
            proposal.yes_votes * 10000 / proposal.total_votes else 0) ≥
            dao.approval_threshold
      then some (.ok { proposal with status := .succeeded, queued_at := some now })
      else some (.ok { proposal with status := .defeated }) := by
    simp only [queue_proposal]
    rw [if_neg (by simp [hs]), if_neg (by simp [ht]), if_neg hnz]
  refine ⟨?_, ?_, ?_⟩
  · intro hq
    have h1 : queue_proposal dao proposal now =
        some (.error .quorumNotReached) := by
      rw [key, if_pos (not_le.mpr hq)]
    refine ⟨h1, ?_⟩
    unfold applyQueue
    rw [h1]
  · intro hq ha
    rw [key, if_neg (not_not_intro hq), if_pos ha]
  · intro hq ha
    rw [key, if_neg (not_not_intro hq), if_neg (not_le.mpr ha)]

/-- Witness for C3 (scenario A): 6000 Yes out of 6000 votes against a
reference power of 10000 meets the 5000 bp quorum and the 6000 bp approval
threshold, so queueing at time 101 yields `Succeeded` queued at 101. -/
theorem c3_queue_tally_witness :
    queue_proposal sampleDao samplePropA 101 =
      some (.ok { samplePropA with status := .succeeded, queued_at := some 101 }) :=
  (c3_queue_tally sampleDao samplePropA 101 rfl (by decide) (by decide)).2.1
    (by decide) (by decide)

/-- Helper: a normally completing `queue_proposal` starts from an `Active`
proposal and produces either the `Succeeded`-and-queued or the `Defeated`
update, nothing else. -/
theorem queue_ok_facts (dao : DAO) (p : Proposal) (now : Int) (p' : Proposal)
    (h : queue_proposal dao p now = some (.ok p')) :
    p.status = .active ∧
    (p' = { p with status := .succeeded, queued_at := some now } ∨
     p' = { p with status := .defeated }) := by
  simp only [queue_proposal] at h
  by_cases h1 : p.status = .active
  · refine ⟨h1, ?_⟩
    rw [if_neg (not_not_intro h1)] at h
    by_cases h2 : now > p.end_time
    · rw [if_neg (not_not_intro h2)] at h
      by_cases h3 : dao.total_members * 1000 = 0
      · rw [if_pos h3] at h
        exact absurd h (by simp)
      · rw [if_neg h3] at h
        by_cases h4 : p.total_votes * 10000 / (dao.total_members * 1000) ≥
            dao.quorum_threshold
        · rw [if_neg (not_not_intro h4)] at h
          by_cases h5 : (if p.total_votes > 0 then
              p.yes_votes * 10000 / p.total_votes else 0) ≥ dao.approval_threshold
          · rw [if_pos h5] at h
            simp only [Option.some.injEq, Except.ok.injEq] at h
            exact Or.inl h.symm
          · rw [if_neg h5] at h
            simp only [Option.some.injEq, Except.ok.injEq] at h
            exact Or.inr h.symm
        · rw [if_pos h4] at h
          exact absurd h (by simp)
    · rw [if_pos h2] at h
      exact absurd h (by simp)
  · rw [if_pos h1] at h
    exact absurd h (by simp)

/-- Helper: a normally completing `execute_proposal` starts from a
`Succeeded` proposal, marks it `Executed` with `executedAt = now`, and
changes the DAO account only through a `ConfigChange` payload, whose present
fields it copies in unvalidated. -/
theorem execute_ok_facts (a : ExecuteAccounts) (now : Int) (b : ExecuteAccounts)
    (h : execute_proposal a now = some (.ok b)) :
    a.proposal.status = .succeeded ∧
    b.proposal = { a.proposal with status := .executed, executed_at := some now } ∧
    b.dao = (match a.proposal.proposal_type with
      | .configChange vp td qt ap =>
          { a.dao with
            voting_period := vp.getD a.dao.voting_period
            timelock_delay := td.getD a.dao.timelock_delay
            quorum_threshold := qt.getD a.dao.quorum_threshold
            approval_threshold := ap.getD a.dao.approval_threshold }
      | _ => a.dao) := by
  by_cases h1 : a.proposal.status = .succeeded
  · refine ⟨h1, ?_⟩
    unfold execute_proposal at h
    simp only [h1, not_true_eq_false, if_false] at h
    rcases hq : a.proposal.queued_at with _ | q
    · rw [hq] at h
      exact absurd h (by simp)
    · simp only [hq] at h
      by_cases h2 : now ≥ q + a.dao.timelock_delay
      · rw [if_neg (not_not_intro h2)] at h
        rcases hty : a.proposal.proposal_type with
          ⟨rcp, amt⟩ | ⟨vp, td, qt, ap⟩ | ⟨mm, pw⟩ | mm | ⟨dd, tg⟩ <;>
            simp only [hty] at h ⊢
        · by_cases h3 : amt > a.treasury_lamports
          · rw [if_pos h3] at h
            exact absurd h (by simp)
          · rw [if_neg h3] at h
            simp only [Option.some.injEq, Except.ok.injEq] at h
            subst h
            exact ⟨by simp [hq], rfl⟩
        · simp only [Option.some.injEq, Except.ok.injEq] at h
          subst h
          exact ⟨by simp [hq], rfl⟩
        · simp only [Option.some.injEq, Except.ok.injEq] at h
          subst h
          exact ⟨by simp [hq], rfl⟩
        · simp only [Option.some.injEq, Except.ok.injEq] at h
          subst h
          exact ⟨by simp [hq], rfl⟩
        · simp only [Option.some.injEq, Except.ok.injEq] at h
          subst h
          exact ⟨by simp [hq], rfl⟩
      · rw [if_pos h2] at h
        exact absurd h (by simp)
  · unfold execute_proposal at h
    rw [if_pos h1] at h
    exact absurd h (by simp)

/-- Helper: a normally completing `cancel_proposal` starts from an `Active`
or `Succeeded` proposal and produces exactly the `Cancelled` update. -/
theorem cancel_ok_facts (dao : DAO) (p : Proposal) (ck : Nat) (now : Int)
    (p' : Proposal) (h : cancel_proposal dao p ck now = .ok p') :
    (p.status = .active ∨ p.status = .succeeded) ∧
    p' = { p with status := .cancelled, cancelled_at := some now } := by
  simp only [cancel_proposal] at h
  by_cases h1 : p.status = .active ∨ p.status = .succeeded
  · refine ⟨h1, ?_⟩
    rw [if_neg (not_not_intro h1)] at h
    by_cases h2 : p.proposer = ck ∨ dao.authority = ck
    · rw [if_neg (not_not_intro h2)] at h
      simp only [Except.ok.injEq] at h
      exact h.symm
    · rw [if_pos h2] at h
      exact absurd h (by simp)
  · rw [if_pos h1] at h
    exact absurd h (by simp)

/-- Tally update performed by `cast_vote`: the tally matching the vote kind
and the running total each grow by the credited power `w`. -/
def bumpTallies (p : Proposal) (vt : VoteType) (w : Nat) : Proposal :=
  { p with
    yes_votes := match vt with
      | .yes => p.yes_votes + w
      | _ => p.yes_votes
    no_votes := match vt with
      | .no => p.no_votes + w
      | _ => p.no_votes
    abstain_votes := match vt with
      | .abstain => p.abstain_votes + w
      | _ => p.abstain_votes
    total_votes := p.total_votes + w }

/-- Helper: a normally completing `cast_vote` happens only with no existing
vote record, an `Active` proposal, an open window, an active member with
positive power; it bumps the matching tally and the total by the member's
`voting_power` and snapshots that power in the fresh Vote record. -/
theorem cast_ok_facts (p : Proposal) (m : Member) (ev : Option Vote)
    (pk vk : Nat) (vt : VoteType) (c : String) (now : Int) (r : CastVoteResult)
    (h : cast_vote p m ev pk vk vt c now = .ok r) :
    ev = none ∧ p.status = .active ∧ now ≤ p.end_time ∧
    m.is_active = true ∧ 0 < m.voting_power ∧
    r.proposal = bumpTallies p vt m.voting_power ∧
    r.vote_record = { proposal := pk, voter := vk, vote_type := vt
                      voting_power := m.voting_power, comment := c
                      voted_at := now } ∧
    r.member = m := by
  rcases ev with _ | v
  · simp only [cast_vote, Option.isSome_none, Bool.false_eq_true, if_false] at h
    by_cases h1 : p.status = .active
    · rw [if_neg (not_not_intro h1)] at h
      by_cases h2 : now ≤ p.end_time
      · rw [if_neg (not_not_intro h2)] at h
        by_cases h3 : m.is_active
        · rw [if_neg (not_not_intro h3)] at h
          by_cases h4 : m.voting_power > 0
          · rw [if_neg (not_not_intro h4)] at h
            simp only [Except.ok.injEq] at h
            subst h
            exact ⟨rfl, h1, h2, h3, h4, rfl, rfl, rfl⟩
          · rw [if_pos h4] at h
            exact absurd h (by simp)
        · rw [if_pos h3] at h
          exact absurd h (by simp)
      · rw [if_pos h2] at h
        exact absurd h (by simp)
    · rw [if_pos h1] at h
      exact absurd h (by simp)
  · simp only [cast_vote, Option.isSome_some, if_true] at h
    exact absurd h (by simp)

/-- C7: proposals in a terminal status (`Defeated`, `Executed`, `Cancelled`)
are frozen — every operation's committed state is unchanged — and the only
status transitions any operation can perform are Active→Succeeded,
Active→Defeated (queue), Succeeded→Executed (execute),
Active/Succeeded→Cancelled (cancel); `cast_vote` never changes the status. -/
theorem c7_terminal_states_frozen :
    (∀ proposal : Proposal,
        proposal.status = .defeated ∨ proposal.status = .executed ∨
          proposal.status = .cancelled →
        (∀ member existing pk vk vt c now,
            applyCastVote proposal member existing pk vk vt c now =
              (proposal, existing)) ∧
        (∀ dao now, applyQueue dao proposal now = proposal) ∧
        (∀ dao t r now,
            applyExecute ⟨dao, proposal, t, r⟩ now = ⟨dao, proposal, t, r⟩) ∧
        (∀ dao ck now, applyCancel dao proposal ck now = proposal)) ∧
    (∀ dao p now p', queue_proposal dao p now = some (.ok p') →
        p.status = .active ∧ (p'.status = .succeeded ∨ p'.status = .defeated)) ∧
    (∀ a now b, execute_proposal a now = some (.ok b) →
        a.proposal.status = .succeeded ∧ b.proposal.status = .executed) ∧
    (∀ dao p ck now p', cancel_proposal dao p ck now = .ok p' →
        (p.status = .active ∨ p.status = .succeeded) ∧ p'.status = .cancelled) ∧
    (∀ p m ev pk vk vt c now r, cast_vote p m ev pk vk vt c now = .ok r →
        p.status = .active ∧ r.proposal.status = .active) := by
  refine ⟨?_, ?_, ?_, ?_, ?_⟩
  · intro proposal hterm
    have hna : ¬ (proposal.status = .active) := by
      rcases hterm with h | h | h <;> simp [h]
    have hnsu : ¬ (proposal.status = .succeeded) := by
      rcases hterm with h | h | h <;> simp [h]
    refine ⟨?_, ?_, ?_, ?_⟩
    · intro member ev pk vk vt c now
      rcases ev with _ | v
      · unfold applyCastVote cast_vote
        simp [hna]
      · unfold applyCastVote cast_vote
        simp
    · intro dao now
      unfold applyQueue queue_proposal
      simp [hna]
    · intro dao t r now
      unfold applyExecute execute_proposal
      simp [hnsu]
    · intro dao ck now
      unfold applyCancel cancel_proposal
      simp [hna, hnsu]
  · intro dao p now p' h
    obtain ⟨h1, h2⟩ := queue_ok_facts dao p now p' h
    refine ⟨h1, ?_⟩
    rcases h2 with h2 | h2 <;> rw [h2]
    · left; rfl
    · right; rfl
  · intro a now b h
    obtain ⟨h1, h2, -⟩ := execute_ok_facts a now b h
    exact ⟨h1, by rw [h2]⟩
  · intro dao p ck now p' h
    obtain ⟨h1, h2⟩ := cancel_ok_facts dao p ck now p' h
    exact ⟨h1, by rw [h2]⟩
  · intro p m ev pk vk vt c now r h
    obtain ⟨-, h1, -, -, -, h2, -, -⟩ := cast_ok_facts p m ev pk vk vt c now r h
    refine ⟨h1, ?_⟩
    rw [h2]
    exact h1

/-- Witness for C7: cancelling an already `Executed` proposal leaves the
committed state unchanged. -/
theorem c7_terminal_states_frozen_witness :
    applyCancel sampleDao { samplePropA with status := .executed } 1 50 =
      { samplePropA with status := .executed } :=
  ((c7_terminal_states_frozen.1 { samplePropA with status := .executed }
      (Or.inr (Or.inl rfl))).2.2.2) sampleDao 1 50

/-- C8: a successful `cast_vote` credits exactly the voter's own
`votingPower`: the tally matching the vote kind and the total each grow by
that power (the other tallies are untouched), and the fresh Vote record
snapshots that power — all regardless of the member's `delegate` field,
which the handler never reads. -/
theorem c8_vote_credits_own_power (p : Proposal) (m : Member)
    (pk vk : Nat) (vt : VoteType) (c : String) (now : Int) (r : CastVoteResult)
    (h : cast_vote p m none pk vk vt c now = .ok r) :
    r.proposal.total_votes = p.total_votes + m.voting_power ∧
    (vt = .yes → r.proposal.yes_votes = p.yes_votes + m.voting_power ∧
        r.proposal.no_votes = p.no_votes ∧
        r.proposal.abstain_votes = p.abstain_votes) ∧
    (vt = .no → r.proposal.no_votes = p.no_votes + m.voting_power ∧
        r.proposal.yes_votes = p.yes_votes ∧
        r.proposal.abstain_votes = p.abstain_votes) ∧
    (vt = .abstain →
        r.proposal.abstain_votes = p.abstain_votes + m.voting_power ∧
        r.proposal.yes_votes = p.yes_votes ∧
        r.proposal.no_votes = p.no_votes) ∧
    r.vote_record = { proposal := pk, voter := vk, vote_type := vt
                      voting_power := m.voting_power, comment := c
                      voted_at := now } ∧
    r.member = m := by
  obtain ⟨-, -, -, -, -, hp, hv, hm⟩ := cast_ok_facts p m none pk vk vt c now r h
  refine ⟨?_, ?_, ?_, ?_, hv, hm⟩
  · rw [hp]; rfl
  · intro hvt; subst hvt; rw [hp]; exact ⟨rfl, rfl, rfl⟩
  · intro hvt; subst hvt; rw [hp]; exact ⟨rfl, rfl, rfl⟩
  · intro hvt; subst hvt; rw [hp]; exact ⟨rfl, rfl, rfl⟩

/-- Witness for C8 (scenario D): `sampleMember` has a delegate set, yet a
direct Yes vote is credited with the member's own 1000 voting power. -/
theorem c8_vote_credits_own_power_witness :
    sampleMember.delegate = some 7 ∧
    ∃ r, cast_vote samplePropA sampleMember none 8 3 VoteType.yes "" 50 = .ok r ∧
      r.proposal.total_votes = samplePropA.total_votes + sampleMember.voting_power :=
  ⟨rfl, _, rfl,
    (c8_vote_credits_own_power samplePropA sampleMember 8 3 .yes "" 50 _ rfl).1⟩

/-- Equality of the four governance parameters between two DAO states. -/
def sameParams (d e : DAO) : Prop :=
  e.voting_period = d.voting_period ∧ e.timelock_delay = d.timelock_delay ∧
  e.quorum_threshold = d.quorum_threshold ∧
  e.approval_threshold = d.approval_threshold

/-- C1 counterexample: `sampleDao` satisfies the creation-time bounds, yet
executing a `Succeeded` `ConfigChange` proposal whose payload carries a
20000 bp quorum threshold completes normally and leaves the unit with
`quorumThresholdBp = 20000 > 10000`: the bounds are not preserved by
`execute_proposal`. -/
theorem c1_counterexample :
    ParamBounds sampleDao ∧
    execute_proposal
        { dao := sampleDao, proposal := samplePropC
          treasury_lamports := 0, recipient_lamports := 0 } 1000 =
      some (.ok
        { dao := { sampleDao with quorum_threshold := 20000 }
          proposal := { samplePropC with
                        status := .executed, executed_at := some 1000 }
          treasury_lamports := 0, recipient_lamports := 0 }) ∧
    ¬ ParamBounds { sampleDao with quorum_threshold := 20000 } :=
  ⟨by decide, rfl, by decide⟩

/-- C1 (amended): the parameter bounds are checked only at `create_dao`
(whose successful result satisfies them); `create_proposal` and `add_member`
never touch the parameters; but `execute_proposal` of a `ConfigChange`
overwrites each present parameter with the proposed value without
revalidation, so the invariant survives only when the proposed values are
themselves in range; non-`ConfigChange` actions leave the DAO unchanged. -/
theorem c1_bounds_checked_only_at_create :
    (∀ ak tk nm vp td qt ap now dao,
        create_dao ak tk nm vp td qt ap now = .ok dao → ParamBounds dao) ∧
    (∀ dao member dk pk ti de pt now r,
        create_proposal dao member dk pk ti de pt now = .ok r →
          sameParams dao r.dao) ∧
    (∀ dao me dk ak nk vp now r,
        add_member dao me dk ak nk vp now = .ok r → sameParams dao r.dao) ∧
    (∀ a now b, execute_proposal a now = some (.ok b) →
        ((∀ vp td qt ap,
            a.proposal.proposal_type ≠ .configChange vp td qt ap) →
          b.dao = a.dao) ∧
        (∀ vp td qt ap,
            a.proposal.proposal_type = .configChange vp td qt ap →
          b.dao.voting_period = vp.getD a.dao.voting_period ∧
          b.dao.timelock_delay = td.getD a.dao.timelock_delay ∧
          b.dao.quorum_threshold = qt.getD a.dao.quorum_threshold ∧
          b.dao.approval_threshold = ap.getD a.dao.approval_threshold)) := by
  refine ⟨?_, ?_, ?_, ?_⟩
  · intro ak tk nm vp td qt ap now dao h
    simp only [create_dao] at h
    split_ifs at h <;> cases h
    simp only [ParamBounds]
    omega
  · intro dao member dk pk ti de pt now r h
    simp only [create_proposal] at h
    split_ifs at h <;> cases h
    exact ⟨rfl, rfl, rfl, rfl⟩
  · intro dao me dk ak nk vp now r h
    simp only [add_member] at h
    split_ifs at h <;> cases h
    exact ⟨rfl, rfl, rfl, rfl⟩
  · intro a now b h
    obtain ⟨-, -, hdao⟩ := execute_ok_facts a now b h
    constructor
    · intro hne
      rw [hdao]
      rcases hty : a.proposal.proposal_type with
        ⟨rcp, amt⟩ | ⟨vp, td, qt, ap⟩ | ⟨mm, pw⟩ | mm | ⟨dd, tg⟩ <;>
          simp only [hty]
      · exact absurd hty (hne vp td qt ap)
    · intro vp td qt ap hty
      rw [hdao]
      simp [hty]

/-- Witness for C1's amended theorem: creating a unit with quorum 5000 bp,
approval 6000 bp, period 100 and timelock 500 yields in-bounds parameters. -/
theorem c1_bounds_checked_only_at_create_witness :
    ∃ dao, create_dao 1 2 "dao" 100 500 5000 6000 0 = .ok dao ∧
      ParamBounds dao :=
  ⟨_, rfl,
    c1_bounds_checked_only_at_create.1 1 2 "dao" 100 500 5000 6000 0 _ rfl⟩

end DaoGov
